import Mathlib

/-!
Verification of the deep-research client (`src/lib/openai.ts`, `src/lib/store.ts`,
`src/lib/templates-api.ts`, `ResearchForm`, `TemplatesPage`).

The TypeScript source is shallowly embedded: JS strings become Lean `String`
(operating on the underlying `List Char`), JS numbers used for fractional
retry-after seconds become `ℚ`, fallible remote calls become `Except`/`Option`,
and the polling loops become step functions over explicit fetch outcomes plus
fuel-bounded recursion whose fuel strictly dominates the source's time budget.
Each definition carries a comment pointing at the source lines it embeds.
Where a file in the repository contains a trailing related-document section
(after the separator marker), the first (primary) document is the one embedded.
-/

namespace DeepSynergy

/-! ## JavaScript string primitives

Models of the JS string operations used by the source: `trim`, `includes`,
`replace` (first occurrence), and character-class tests for the regexes.
Strings are handled through their `List Char` data, assuming each character
is one UTF-16 code unit (true of all text the source manipulates).
-/

/-- Whitespace test used for JS `trim` and the regex class `\s`
(restricted to the ASCII whitespace that can occur in the payload text). -/
def isWsChar (c : Char) : Bool :=
  c == ' ' || c == '\t' || c == '\n' || c == '\r'

/-- Character-list version of JS `String.prototype.trim`. -/
def trimChars (l : List Char) : List Char :=
  ((l.dropWhile isWsChar).reverse.dropWhile isWsChar).reverse

/-- JS `String.prototype.trim`. -/
def jsTrim (s : String) : String :=
  ⟨trimChars s.data⟩

/-- Character-list version of JS `String.prototype.includes`:
`pat` occurs contiguously inside the list. -/
def listIncludes (pat : List Char) : List Char → Bool
  | [] => pat.isEmpty
  | c :: t => pat.isPrefixOf (c :: t) || listIncludes pat t

/-- JS `s.includes(pat)`. -/
def jsIncludes (s pat : String) : Bool :=
  listIncludes pat.data s.data

/-- Character-list version of JS `String.prototype.replace` with a string
pattern: only the first occurrence is replaced. -/
def replaceFirstChars (pat repl : List Char) : List Char → List Char
  | [] => []
  | c :: t =>
    if pat.isPrefixOf (c :: t) then repl ++ (c :: t).drop pat.length
    else c :: replaceFirstChars pat repl t

/-- JS `s.replace(pat, repl)` for a string pattern (first occurrence only). -/
def jsReplaceFirst (s pat repl : String) : String :=
  ⟨replaceFirstChars pat.data repl.data s.data⟩

/-! ## Response classifier data model

Shapes of the loosely-typed job-status payload consumed by `pollForResult`
(`src/lib/openai.ts` lines 242-360). Optional JSON fields become `Option`;
JS truthiness of a string field is `≠ ""`, of an object/array field is
presence, of `needs_input` is a `Bool`.
-/

/-- Content part of a `message` output item: exposes `text` / `output_text`. -/
structure Part where
  text : Option String
  output_text : Option String
deriving DecidableEq

/-- The `content` of an output item is either a flat string or a list of parts. -/
inductive ItemContent where
  | str (s : String)
  | parts (ps : List Part)
deriving DecidableEq

/-- One element of the payload's `output` array. -/
structure OutputItem where
  type : Option String
  content : Option ItemContent
  text : Option String
deriving DecidableEq

/-- Top-level `error` object of a payload. -/
structure ErrObj where
  message : Option String
deriving DecidableEq

/-- Job-status payload as read by the polling loop. -/
structure Payload where
  status : Option String
  error : Option ErrObj
  needs_input : Bool
  output : Option (List OutputItem)
  output_text : Option String
deriving DecidableEq

/-- Result of classifying one payload (spec §4.2 `ClassifiedResult`).
`question none` is the `needs_input` status path, which returns
`isQuestion: true` without a `questionText`. -/
inductive ClassifiedResult where
  | pending
  | failed (message : String)
  | question (questionText : Option String)
  | report
deriving DecidableEq

/-! ## Question heuristic and text extraction

Embeds `containsQuestions` (`openai.ts` lines 260-277) and the output-array
scan of lines 282-303.
-/

/-- Question-word alternatives of the regex
`[?]|(what|how|when|where|why|which|who|can you|could you|would you|please)\s+`,
as character lists (the regex is applied case-insensitively). -/
def questionWords : List (List Char) :=
  ["what".data, "how".data, "when".data, "where".data, "why".data,
   "which".data, "who".data, "can you".data, "could you".data,
   "would you".data, "please".data]

/-- Does `l` start with the word `w` followed by at least one whitespace
character (the `\s+` of the regex)? -/
def wordWsAt (w l : List Char) : Bool :=
  w.isPrefixOf l &&
    (match (l.drop w.length).head? with
     | some c => isWsChar c
     | none => false)

/-- Scan every position of a (lowercased) character list for a match of the
question-pattern regex: a `?` or a question word followed by whitespace. -/
def qScan : List Char → Bool
  | [] => false
  | c :: t => c == '?' || questionWords.any (fun w => wordWsAt w (c :: t)) || qScan t

/-- Lowercase a character list (the regex `i` flag). -/
def lowered (l : List Char) : List Char :=
  l.map Char.toLower

/-- The regex test `questionPatterns.test(trimmed)` of `openai.ts` line 266-267. -/
def questionPatternsTest (l : List Char) : Bool :=
  qScan (lowered l)

/-- Embeds `containsQuestions` (`openai.ts` lines 260-277): empty text is no
question; text whose trim is under 500 chars and matches the question pattern
is a question; text whose trim contains a `?` and is under 2000 chars is a
question. -/
def containsQuestions (text : String) : Bool :=
  if text = "" then false
  else
    let trimmed := trimChars text.data
    (decide (trimmed.length < 500) && questionPatternsTest trimmed)
      || (decide (0 < trimmed.count '?') && decide (trimmed.length < 2000))

/-- JS string-coalescing `part.text || part.output_text || ''`
(`openai.ts` line 289). -/
def partText (p : Part) : String :=
  match p.text with
  | some t => if t = "" then (match p.output_text with
      | some u => u
      | none => "") else t
  | none => match p.output_text with
      | some u => u
      | none => ""

/-- Concatenation `item.content.map(...).join('')` (`openai.ts` lines 288-290). -/
def joinParts (ps : List Part) : String :=
  String.join (ps.map partText)

/-- JS truthiness of an item's `content` field. -/
def contentTruthy : Option ItemContent → Bool
  | some (.str s) => decide (s ≠ "")
  | some (.parts _) => true
  | none => false

/-- Per-item question extraction of the loop body at `openai.ts` lines 285-302:
a `message` item with truthy content yields its (joined) text when
`containsQuestions` holds of it; otherwise a truthy `item.text` that
`containsQuestions` accepts is used. -/
def extractItemQuestion (it : OutputItem) : Option String :=
  if it.type = some "message" ∧ contentTruthy it.content = true then
    match it.content with
    | some (.parts ps) =>
      let t := joinParts ps
      if containsQuestions t then some t else none
    | some (.str s) => if containsQuestions s then some s else none
    | none => none
  else
    match it.text with
    | some t => if t ≠ "" ∧ containsQuestions t = true then some t else none
    | none => none

/-- The `for (const item of data.output)` scan with `break` on the first hit
(`openai.ts` lines 285-303); yields `""` when no item matches, mirroring the
initial `let questionText = ''`. -/
def findQuestionText : List OutputItem → String
  | [] => ""
  | it :: rest =>
    match extractItemQuestion it with
    | some t => t
    | none => findQuestionText rest

/-! ## The classifier

One successful poll iteration of `pollForResult` (`openai.ts` lines 242-360),
written as the pure classification `payload → ClassifiedResult` the spec
describes in §4.2. Branches appear in source order.
-/

/-- JS truthiness of an optional string field. -/
def truthyStr : Option String → Bool
  | some s => decide (s ≠ "")
  | none => false

/-- Failure message `data.error?.message || 'Deep research failed'`
(`openai.ts` line 248). -/
def failMessage : Option ErrObj → String
  | some e =>
    match e.message with
    | some m => if m = "" then "Deep research failed" else m
    | none => "Deep research failed"
  | none => "Deep research failed"

/-- Final status checks of `openai.ts` lines 339-360: `completed` with no
output sleeps and retries (pending); `completed` with output is the report;
everything else (processing, pending, queued, in_progress, absent or unknown
status) is pending. -/
def statusStep (d : Payload) : ClassifiedResult :=
  if d.status = some "completed" then
    if d.output.isSome = false ∧ truthyStr d.output_text = false then .pending
    else .report
  else .pending

/-- The `data.output_text` block of `openai.ts` lines 322-336: a truthy
`output_text` that contains questions and is under 2000 chars is a question;
a completed status with `output_text` of length ≥ 2000 is the report;
otherwise fall through to the status checks. -/
def outputTextStep (d : Payload) : ClassifiedResult :=
  match d.output_text with
  | some ot =>
    if ot ≠ "" then
      if containsQuestions ot = true ∧ ot.length < 2000 then .question (some ot)
      else if d.status = some "completed" ∧ 2000 ≤ ot.length then .report
      else statusStep d
    else statusStep d
  | none => statusStep d

/-- Classification of one polled payload (`openai.ts` lines 242-360):
failures are surfaced first, then the explicit `needs_input` signal, then the
question heuristic over the `output` array, then the completed-with-output
check, then the `output_text` block, then the status checks. -/
def classify (d : Payload) : ClassifiedResult :=
  if d.status = some "failed" ∨ d.error.isSome = true then
    .failed (failMessage d.error)
  else if d.status = some "needs_input" ∨ d.needs_input = true then
    .question none
  else
    let qt : String :=
      match d.output with
      | some items => findQuestionText items
      | none => ""
    if d.output.isSome = true ∧ qt ≠ "" ∧ qt.length < 2000 then
      .question (some qt)
    else if d.output.isSome = true ∧ d.status = some "completed" then
      .report
    else outputTextStep d

/-! ## Polling transport: rate limits and transient errors

Embeds the non-2xx handling of `pollForResult` (`openai.ts` lines 229-239 and
362-371) and the submission-path 429 handling of `runDeepResearch`
(lines 417-434). Durations are milliseconds as rationals, since the source
multiplies possibly fractional seconds by 1000.
-/

/-- A JSON `retry_after` value, which the source accepts as either a string
(run through `parseFloat`) or a number. -/
inductive RetryVal where
  | str (s : String)
  | num (q : ℚ)
deriving DecidableEq

/-- JS truthiness of a `retry_after` value (`0` and `""` are falsy). -/
def retryTruthy : RetryVal → Bool
  | .str s => decide (s ≠ "")
  | .num q => decide (q ≠ 0)

/-- Error object of a 429 body: `error.retry_after` and `error.message`. -/
structure RateErr where
  retry_after : Option RetryVal
  message : Option String
deriving DecidableEq

/-- Digits-fold helper for `parseFloat`. -/
def natOfDigits (l : List Char) : ℕ :=
  l.foldl (fun acc c => acc * 10 + (c.toNat - 48)) 0

/-- JS `parseFloat` restricted to the `[\d.]+` strings the source feeds it:
leading digits, then an optional `.` and fractional digits; parsing stops at
the first character that fits neither. -/
def parseFloatQ (s : String) : ℚ :=
  let l := s.data
  let intPart := l.takeWhile Char.isDigit
  let rest := l.drop intPart.length
  match rest with
  | '.' :: rest2 =>
    let fracPart := rest2.takeWhile Char.isDigit
    (natOfDigits intPart : ℚ) + (natOfDigits fracPart : ℚ) / ((10 : ℚ) ^ fracPart.length)
  | _ => (natOfDigits intPart : ℚ)

/-- Coerce a `retry_after` value to seconds:
`typeof retryAfter === 'string' ? parseFloat(retryAfter) : retryAfter`
(`openai.ts` line 234). -/
def parseFloatVal : RetryVal → ℚ
  | .str s => parseFloatQ s
  | .num q => q

/-- The pattern part of the regex search
`errorMessage.match(/try again in ([\d.]+)s/)`. -/
def tryAgainPat : List Char := "try again in ".data

/-- Digit-or-dot class `[\d.]`. -/
def isDigitDot (c : Char) : Bool :=
  c.isDigit || c == '.'

/-- Search for `/try again in ([\d.]+)s/` and return the captured group:
at each position, the literal prefix must match, then a maximal nonempty run
of `[\d.]` characters, then `s`. Backtracking inside `[\d.]+` cannot help
because `s` is not in the class, so only the maximal run is tried. -/
def matchTryAgain : List Char → Option (List Char)
  | [] => none
  | c :: rest =>
    if tryAgainPat.isPrefixOf (c :: rest) then
      let after := (c :: rest).drop tryAgainPat.length
      let run := after.takeWhile isDigitDot
      if 0 < run.length ∧ (after.drop run.length).head? = some 's' then some run
      else matchTryAgain rest
    else matchTryAgain rest

/-- The 429 wait of the polling loop (`openai.ts` lines 231-237), in
milliseconds: `errorData.error?.retry_after || 5`, string values run through
`parseFloat`, then multiplied by 1000. The error message is never consulted.
`none` is a body whose JSON parse failed or that has no `error` field. -/
def poll429WaitMs (body : Option RateErr) : ℚ :=
  let ra : Option RetryVal :=
    match body with
    | some e =>
      match e.retry_after with
      | some v => if retryTruthy v then some v else none
      | none => none
    | none => none
  match ra with
  | some v => parseFloatVal v * 1000
  | none => 5 * 1000

/-- The 429 retry decision of `runDeepResearch` (`openai.ts` lines 419-431):
`retry_after` field first, else the `try again in ([\d.]+)s` capture from the
error message (itself defaulted to `'Failed to run deep research'`); `some w`
means sleep `w` milliseconds and retry the submission once, `none` means the
error message is thrown. -/
def submit429Retry (e : RateErr) : Option ℚ :=
  let errorMessage :=
    match e.message with
    | some m => if m = "" then "Failed to run deep research" else m
    | none => "Failed to run deep research"
  let fallback : Option RetryVal :=
    (matchTryAgain errorMessage.data).map (fun l => RetryVal.str ⟨l⟩)
  let ra : Option RetryVal :=
    match e.retry_after with
    | some v => if retryTruthy v then some v else fallback
    | none => fallback
  ra.map (fun v => parseFloatVal v * 1000)

/-- The catch-block test of `pollForResult` (`openai.ts` line 364):
`error.message?.includes('404') || error.message?.includes('Failed to poll')`. -/
def pollErrorTransient (msg : String) : Bool :=
  jsIncludes msg "404" || jsIncludes msg "Failed to poll"

/-- One fetch of the status endpoint, as seen by the polling loop: a parsed
payload, a non-2xx HTTP response (status code, status text, parsed error
body), or a thrown transport error carrying a message. -/
inductive FetchOutcome where
  | ok (d : Payload)
  | httpErr (code : ℕ) (statusText : String) (body : Option RateErr)
  | netErr (msg : String)
deriving DecidableEq

/-- What the loop returns when it stops. -/
inductive PollReturn where
  | question (d : Payload) (questionText : Option String)
  | report (d : Payload)
deriving DecidableEq

/-- Effect of one iteration of the polling loop: sleep some milliseconds and
re-fetch, return a value, or propagate an error to the caller. -/
inductive PollAction where
  | sleepRetry (ms : ℚ)
  | yield (r : PollReturn)
  | raise (msg : String)
deriving DecidableEq

/-- One iteration of `pollForResult`'s `while (true)` loop
(`openai.ts` lines 221-372) on a given fetch outcome. A 429 sleeps the
computed wait and retries; any other non-2xx throws
`Failed to poll response: <statusText>`, which the catch block then retries
(its message contains `Failed to poll`); a thrown transport error is retried
only when its message contains `404` or `Failed to poll`; a classified
failure is thrown through the same catch block; pending sleeps 2000ms when
status is `completed` (output still materializing) and the 3000ms poll
interval otherwise. -/
def pollStep (o : FetchOutcome) : PollAction :=
  match o with
  | .ok d =>
    match classify d with
    | .failed m => if pollErrorTransient m then .sleepRetry 3000 else .raise m
    | .question qt => .yield (.question d qt)
    | .report => .yield (.report d)
    | .pending => .sleepRetry (if d.status = some "completed" then 2000 else 3000)
  | .httpErr code statusText body =>
    if code = 429 then .sleepRetry (poll429WaitMs body)
    else
      let m := "Failed to poll response: " ++ statusText
      if pollErrorTransient m then .sleepRetry 3000 else .raise m
  | .netErr m => if pollErrorTransient m then .sleepRetry 3000 else .raise m

/-! ## Vector-store readiness wait and file attachment

Embeds `waitForVectorStoreReady` (`openai.ts` lines 101-147),
`addFilesToVectorStore` (lines 152-184) and `processFilesForResearch`
(lines 189-213). Time advances only at the 3000ms sleep of each loop
iteration, so the `Date.now()` budget check becomes an elapsed counter.
-/

/-- The `file_counts` the store reports, after the source's `|| 0` defaults. -/
structure FileCounts where
  in_progress : ℕ
  completed : ℕ
deriving DecidableEq

/-- How the readiness wait ended. Both constructors are normal returns:
the source function never throws. -/
inductive WaitResult where
  | ready
  | timedOut
deriving DecidableEq

/-- Readiness condition `inProgress === 0 && completed > 0`
(`openai.ts` line 128); a `none` response covers both the non-ok branch and a
thrown fetch error, each of which just keeps waiting. -/
def countsReady : Option FileCounts → Bool
  | some c => decide (c.in_progress = 0) && decide (0 < c.completed)
  | none => false

/-- Fuel-indexed body of the `while (Date.now() - startTime < maxWaitTime)`
loop; the branch on `elapsed < maxWaitTime` is the source's loop condition and
the fuel, chosen greater than `maxWaitTime / 3000` at the call site, never
runs out before that condition fails. Returns the outcome and the number of
status fetches performed. -/
def waitAux (responses : ℕ → Option FileCounts) (maxWaitTime : ℕ) :
    ℕ → ℕ → ℕ → WaitResult × ℕ
  | 0, _, k => (.timedOut, k)
  | fuel + 1, elapsed, k =>
    if elapsed < maxWaitTime then
      if countsReady (responses k) then (.ready, k + 1)
      else waitAux responses maxWaitTime fuel (elapsed + 3000) (k + 1)
    else (.timedOut, k)

/-- Embeds `waitForVectorStoreReady` (`openai.ts` lines 101-147) with its
default 30000ms ceiling parameterized: poll the store's `file_counts` every
3000ms until no file is in progress and at least one completed, else return
normally (with a logged warning) once the ceiling is reached. -/
def waitForVectorStoreReady (responses : ℕ → Option FileCounts)
    (maxWaitTime : ℕ) : WaitResult × ℕ :=
  waitAux responses maxWaitTime (maxWaitTime / 3000 + 1) 0 0

/-- Sequential per-file attachment loop of `addFilesToVectorStore`
(`openai.ts` lines 159-175): stop at the first failing request. -/
def attachAll (attach : String → Except String Unit) : List String → Except String Unit
  | [] => .ok ()
  | f :: rest =>
    match attach f with
    | .ok _ => attachAll attach rest
    | .error e => .error e

/-- Embeds `addFilesToVectorStore` (`openai.ts` lines 152-184): attach each
file in order (any failure propagates), then run the readiness wait; the wait
result is returned inside `.ok` because the wait cannot throw. -/
def addFilesToVectorStore (attach : String → Except String Unit)
    (responses : ℕ → Option FileCounts) (fileIds : List String) :
    Except String WaitResult :=
  match attachAll attach fileIds with
  | .error e => .error e
  | .ok _ => .ok (waitForVectorStoreReady responses 30000).1

/-- One remote request issued by the file-processing pipeline. -/
inductive RemoteCall where
  | createVectorStore
  | uploadFile (name : String)
  | attachFile (storeId fileId : String)
  | getVectorStore (storeId : String)
deriving DecidableEq

/-- Environment for `processFilesForResearch`: what each remote operation
would return. -/
structure FilesEnv where
  createResult : Except String String
  uploadResult : String → Except String String
  attachResult : String → Except String Unit
  storeCounts : ℕ → Option FileCounts

/-- The `Promise.all` of per-file uploads (`openai.ts` lines 202-203): every
upload is issued; the first rejection propagates. -/
def uploadAll (upload : String → Except String String) :
    List String → Except String (List String)
  | [] => .ok []
  | f :: rest =>
    match upload f with
    | .error e => .error e
    | .ok fid =>
      match uploadAll upload rest with
      | .error e => .error e
      | .ok rest' => .ok (fid :: rest')

/-- Attachment loop with its trace of issued requests. -/
def attachTrace (attach : String → Except String Unit) (storeId : String) :
    List String → Except String Unit × List RemoteCall
  | [] => (.ok (), [])
  | fid :: rest =>
    match attach fid with
    | .error e => (.error e, [.attachFile storeId fid])
    | .ok _ =>
      let (r, cs) := attachTrace attach storeId rest
      (r, .attachFile storeId fid :: cs)

/-- Embeds `processFilesForResearch` (`openai.ts` lines 189-213), returning
the result together with the list of remote requests issued: an empty file
list short-circuits to `null` before any request; otherwise create a vector
store, upload all files concurrently, attach them sequentially, wait for
readiness, and return the store id. -/
def processFilesForResearch (env : FilesEnv) :
    List String → Except String (Option String) × List RemoteCall
  | [] => (.ok none, [])
  | f :: rest =>
    let files := f :: rest
    match env.createResult with
    | .error e => (.error e, [.createVectorStore])
    | .ok storeId =>
      let uploadCalls := files.map RemoteCall.uploadFile
      match uploadAll env.uploadResult files with
      | .error e => (.error e, .createVectorStore :: uploadCalls)
      | .ok fileIds =>
        match attachTrace env.attachResult storeId fileIds with
        | (.error e, acs) => (.error e, .createVectorStore :: (uploadCalls ++ acs))
        | (.ok _, acs) =>
          let w := waitForVectorStoreReady env.storeCounts 30000
          let polls := (List.range w.2).map (fun _ => RemoteCall.getVectorStore storeId)
          (.ok (some storeId), .createVectorStore :: (uploadCalls ++ acs ++ polls))

/-! ## Template store

Embeds `addTemplate` of `src/lib/store.ts` (lines 30-41) and the remote
`saveTemplate` of `src/lib/templates-api.ts` (lines 23-26). -/

/-- The `Template` record of `src/types/template.ts`. -/
structure Template where
  id : String
  name : String
  systemPrompt : Option String
  prompt : String
  model : String
  temperature : ℚ
  topP : ℚ
deriving DecidableEq

/-- Outcome of `addTemplate`: on remote success the error-free state, on
remote failure (`err`) the rolled-back state with the error re-thrown. -/
inductive AddResult where
  | ok (templates : List Template)
  | err (templates : List Template)
deriving DecidableEq

/-- Embeds `addTemplate` (`store.ts` lines 30-41): optimistically append the
template; if the remote save fails, roll back by filtering out every entry
whose id equals the new template's id and re-throw. `remoteOk` is whether
`saveTemplate` succeeded. -/
def addTemplate (ts : List Template) (t : Template) (remoteOk : Bool) : AddResult :=
  let optimistic := ts ++ [t]
  if remoteOk then .ok optimistic
  else .err (optimistic.filter (fun u => decide (u.id ≠ t.id)))

/-- Modelled from the spec: the remote document store behind `saveTemplate`
(`templates-api.ts` lines 23-26) — an id-keyed `setDoc`, which the spec
describes as "set (full overwrite)" on the templates collection keyed by
template id; the Firestore client itself is outside the repository. -/
def setDocTemplates (store : List Template) (t : Template) : List Template :=
  if store.any (fun u => u.id == t.id) then
    store.map (fun u => if u.id == t.id then t else u)
  else store ++ [t]

/-- Number of entries of a template list bearing a given id. -/
def countWithId (ts : List Template) (i : String) : ℕ :=
  (ts.filter (fun u => u.id == i)).length

/-! ## Session orchestrator: the readiness marker

Embeds the reply handling of `sendMessage` in `ResearchForm`
(`src/unnamed/part_000` lines 218-230). -/

/-- Message roles. -/
inductive Role where
  | system
  | user
  | assistant
deriving DecidableEq

/-- A conversation turn. -/
structure ChatMessage where
  role : Role
  content : String
deriving DecidableEq

/-- The `mode` state of `ResearchForm`. -/
inductive Mode where
  | chat
  | research
deriving DecidableEq

/-- Conversation state relevant to the readiness transition. -/
structure ChatState where
  mode : Mode
  messages : List ChatMessage
deriving DecidableEq

/-- The readiness marker. -/
def readyToken : String := "[READY]"

/-- Embeds `sendMessage`'s handling of an assistant chat reply
(`part_000` lines 223-230): when the reply includes `[READY]`, switch to
research mode and append the reply with the first marker occurrence removed
and the result trimmed; otherwise append the reply unchanged. -/
def handleChatReply (st : ChatState) (response : String) : ChatState :=
  if jsIncludes response readyToken then
    { mode := .research,
      messages := st.messages ++
        [⟨.assistant, jsTrim (jsReplaceFirst response readyToken "")⟩] }
  else
    { mode := st.mode, messages := st.messages ++ [⟨.assistant, response⟩] }

/-! ## Helper lemmas -/

/-- Trimming never lengthens a character list. -/
theorem length_trimChars_le (l : List Char) : (trimChars l).length ≤ l.length := by
  unfold trimChars
  calc (((l.dropWhile isWsChar).reverse.dropWhile isWsChar).reverse).length
      = ((l.dropWhile isWsChar).reverse.dropWhile isWsChar).length :=
        List.length_reverse _
    _ ≤ (l.dropWhile isWsChar).reverse.length := (List.dropWhile_sublist _).length_le
    _ = (l.dropWhile isWsChar).length := List.length_reverse _
    _ ≤ l.length := (List.dropWhile_sublist _).length_le

/-- An element the predicate rejects survives `dropWhile`. -/
theorem mem_dropWhile_of_mem {c : Char} {p : Char → Bool} {l : List Char}
    (h : c ∈ l) (hp : p c = false) : c ∈ l.dropWhile p := by
  induction l with
  | nil => simp at h
  | cons a t ih =>
    rw [List.dropWhile_cons]
    rcases List.mem_cons.mp h with rfl | hmem
    · rw [hp]
      simp
    · cases ha : p a with
      | true => simpa using ih hmem
      | false => simp [hmem]

/-- A non-whitespace element of a list survives trimming. -/
theorem mem_trimChars {c : Char} {l : List Char} (h : c ∈ l)
    (hw : isWsChar c = false) : c ∈ trimChars l := by
  unfold trimChars
  rw [List.mem_reverse]
  exact mem_dropWhile_of_mem (List.mem_reverse.mpr (mem_dropWhile_of_mem h hw)) hw

/-- The question-pattern scan accepts any list containing `?`. -/
theorem qScan_of_mem {m : List Char} (h : '?' ∈ m) : qScan m = true := by
  induction m with
  | nil => simp at h
  | cons a t ih =>
    rcases List.mem_cons.mp h with rfl | hmem
    · simp [qScan]
    · simp [qScan, ih hmem]

/-- The (case-insensitive) question-pattern test accepts any list
containing `?`. -/
theorem questionPatternsTest_of_qmark {l : List Char} (h : '?' ∈ l) :
    questionPatternsTest l = true := by
  have hlow : Char.toLower '?' ∈ lowered l := List.mem_map_of_mem Char.toLower h
  have e : Char.toLower '?' = '?' := by decide
  rw [e] at hlow
  exact qScan_of_mem hlow

/-- Text under 500 characters that contains a `?` passes `containsQuestions`. -/
theorem containsQuestions_of_qmark {t : String} (hlen : t.length < 500)
    (hq : '?' ∈ t.data) : containsQuestions t = true := by
  have tne : t ≠ "" := by
    intro he
    rw [he] at hq
    simp at hq
  have hmem : '?' ∈ trimChars t.data := mem_trimChars hq (by decide)
  have hlt : (trimChars t.data).length < 500 :=
    lt_of_le_of_lt (length_trimChars_le t.data) hlen
  unfold containsQuestions
  rw [if_neg tne]
  simp [questionPatternsTest_of_qmark hmem, hlt]

/-- Prefixes extend across appends (boolean form). -/
theorem isPrefixOf_append {p m : List Char} (l : List Char)
    (h : p.isPrefixOf m = true) : p.isPrefixOf (m ++ l) = true := by
  rw [List.isPrefixOf_iff_prefix] at h ⊢
  exact h.trans (List.prefix_append m l)

/-- A pattern that is a prefix is in particular included. -/
theorem listIncludes_of_isPrefixOf {pat l : List Char}
    (h : pat.isPrefixOf l = true) : listIncludes pat l = true := by
  cases l with
  | nil =>
    cases pat with
    | nil => rfl
    | cons a t => simp [List.isPrefixOf] at h
  | cons c t => simp [listIncludes, h]

/-- Appending strings appends their character data. -/
theorem string_data_append (s t : String) : (s ++ t).data = s.data ++ t.data := by
  cases s
  cases t
  rfl

/-- Every message thrown for a non-2xx poll response passes the transient
test, because it starts with `Failed to poll`. -/
theorem pollErrorTransient_pollMessage (st : String) :
    pollErrorTransient ("Failed to poll response: " ++ st) = true := by
  have h1 : ("Failed to poll").data.isPrefixOf ("Failed to poll response: ").data = true := by
    decide
  have h2 := isPrefixOf_append (l := st.data) h1
  unfold pollErrorTransient jsIncludes
  rw [string_data_append, listIncludes_of_isPrefixOf h2, Bool.or_true]

/-- Statement-side predicate for claim C2's hypothesis "contains a question
word": some position of the lowercased text starts with a question word
followed by whitespace. -/
def wordScan : List Char → Bool
  | [] => false
  | c :: r => questionWords.any (fun w => wordWsAt w (c :: r)) || wordScan r

/-- Text contains a question word (in the sense of the source's regex). -/
def hasQuestionWord (t : String) : Bool :=
  wordScan (lowered t.data)

/-! ## Claim theorems -/

/-- C1: for every job-status payload with `status: 'failed'` or a top-level
error object, classification yields the failed outcome carrying the
remote-supplied message (generic fallback when absent), regardless of any
`output`/`output_text` also present — the failure check precedes all output
handling. -/
theorem classify_failed_first (d : Payload)
    (h : d.status = some "failed" ∨ d.error.isSome = true) :
    classify d = .failed (failMessage d.error) := by
  unfold classify
  rw [if_pos h]

/-- Concrete witness for C1: a payload carrying `status: 'failed'`, an error
message, and a long question-bearing `output_text` still classifies as
failed. -/
def failedPayload : Payload :=
  ⟨some "failed", some ⟨some "Rate limit exceeded"⟩, false, none,
   some ⟨'?' :: List.replicate 2500 'x'⟩⟩

/-- Witness for C1 at a concrete payload. -/
theorem classify_failed_first_witness :
    (failedPayload.status = some "failed" ∨ failedPayload.error.isSome = true)
    ∧ classify failedPayload = .failed (failMessage failedPayload.error) :=
  ⟨Or.inl rfl, classify_failed_first failedPayload (Or.inl rfl)⟩

/-- C2: text under 500 characters containing a `?` and a question word is
classified as a clarifying question — never a report — for any status that
is not the failed/needs-input fast path (in particular for
`status: 'completed'`), whether the text arrives as `output_text` or as a
message item in the `output` array. -/
theorem classify_short_question (s t : String)
    (hs1 : s ≠ "failed") (hs2 : s ≠ "needs_input")
    (hlen : t.length < 500) (hq : '?' ∈ t.data)
    (_hword : hasQuestionWord t = true) :
    classify ⟨some s, none, false, none, some t⟩ = .question (some t)
    ∧ classify ⟨some s, none, false,
        some [⟨some "message", some (.str t), none⟩], none⟩ = .question (some t) := by
  have tne : t ≠ "" := by
    intro he
    rw [he] at hq
    simp at hq
  have hcq : containsQuestions t = true := containsQuestions_of_qmark hlen hq
  have hlt : t.length < 2000 := by omega
  constructor
  · simp [classify, outputTextStep, hs1, hs2, tne, hcq, hlt]
  · simp [classify, findQuestionText, extractItemQuestion, contentTruthy,
      hs1, hs2, tne, hcq, hlt]

/-- Witness for C2: the 29-character question from the spec's scenario 2. -/
theorem classify_short_question_witness :
    classify ⟨some "completed", none, false, none,
        some "What time frame should I use?"⟩
      = .question (some "What time frame should I use?")
    ∧ classify ⟨some "completed", none, false,
        some [⟨some "message", some (.str "What time frame should I use?"), none⟩],
        none⟩
      = .question (some "What time frame should I use?") :=
  classify_short_question "completed" "What time frame should I use?"
    (by decide) (by decide) (by decide) (by decide) (by decide)

/-- C3: text of length at least 2000 in a payload with `status: 'completed'`
classifies as the report — never a question — even if it contains `?`
characters, whether it arrives as `output_text` or as a message item in the
`output` array. -/
theorem classify_long_completed_report (t : String) (hlen : 2000 ≤ t.length) :
    classify ⟨some "completed", none, false, none, some t⟩ = .report
    ∧ classify ⟨some "completed", none, false,
        some [⟨some "message", some (.str t), none⟩], none⟩ = .report := by
  have tne : t ≠ "" := by
    intro he
    rw [he] at hlen
    exact absurd hlen (by decide)
  have hnlt : ¬ t.length < 2000 := by omega
  constructor
  · simp [classify, outputTextStep, tne, hnlt, hlen]
  · cases hcq : containsQuestions t with
    | true =>
      simp [classify, findQuestionText, extractItemQuestion, contentTruthy,
        tne, hcq, hnlt]
    | false =>
      simp [classify, findQuestionText, extractItemQuestion, contentTruthy,
        tne, hcq, hnlt]

/-- The 2000-character report text used to witness C3 (it even contains
`?` characters). -/
def bigReport : String :=
  ⟨'?' :: List.replicate 1999 'a'⟩

/-- Witness for C3 at a 2000-character text containing a `?`. -/
theorem classify_long_completed_report_witness :
    classify ⟨some "completed", none, false, none, some bigReport⟩ = .report
    ∧ classify ⟨some "completed", none, false,
        some [⟨some "message", some (.str bigReport), none⟩], none⟩ = .report :=
  classify_long_completed_report bigReport
    (by
      have h : bigReport.length = 2000 := by
        show ('?' :: List.replicate 1999 'a').length = 2000
        rw [List.length_cons, List.length_replicate]
      omega)

/-- The 429 error body of the spec's end-to-end scenario 3: no `retry_after`
field, and a message announcing "try again in 2.5s". -/
def rateBody : RateErr :=
  ⟨none, some "Rate limit reached for o4-mini-deep-research, please try again in 2.5s"⟩

/-- Counterexample to C4: during polling, a 429 whose error message says
"try again in 2.5s" but has no `retry_after` field sleeps the 5000ms default,
not 2500ms — the polling loop never pattern-matches the message. -/
theorem poll429_ignores_message_counterexample :
    pollStep (.httpErr 429 "Too Many Requests" (some rateBody)) = .sleepRetry 5000
    ∧ (5000 : ℚ) ≠ 2500 := by
  have h5 : poll429WaitMs (some rateBody) = 5000 := by
    show (5 : ℚ) * 1000 = 5000
    norm_num
  constructor
  · show PollAction.sleepRetry (poll429WaitMs (some rateBody)) = PollAction.sleepRetry 5000
    rw [h5]
  · norm_num

/-- C4 (amended): a 429 during polling never fails; it sleeps the value of
the error's `retry_after` field when present and truthy, and otherwise a
fixed 5 seconds whatever the message says — the "try again in Ns" message
pattern applies only in the submission path (`runDeepResearch`), where
scenario 3's message yields a 2500ms wait before the single retry. -/
theorem poll429_default_and_submit_retry :
    (∀ m : Option String, poll429WaitMs (some ⟨none, m⟩) = 5000)
    ∧ (∀ m : Option String, poll429WaitMs (some ⟨some (.num (7/2)), m⟩) = 3500)
    ∧ poll429WaitMs none = 5000
    ∧ submit429Retry rateBody = some 2500 := by
  refine ⟨?_, ?_, ?_, ?_⟩
  · intro m
    show (5 : ℚ) * 1000 = 5000
    norm_num
  · intro m
    have hv : retryTruthy (RetryVal.num (7/2)) = true := by
      simp only [retryTruthy, decide_eq_true_eq]
      norm_num
    simp only [poll429WaitMs, hv, if_true, parseFloatVal]
    norm_num
  · show (5 : ℚ) * 1000 = 5000
    norm_num
  · have step1 : submit429Retry rateBody = some (parseFloatQ "2.5" * 1000) := rfl
    have step2 : parseFloatQ "2.5" = 5 / 2 := by
      show ((2 : ℕ) : ℚ) + ((5 : ℕ) : ℚ) / (10 : ℚ) ^ (1 : ℕ) = 5 / 2
      norm_num
    rw [step1, step2]
    norm_num

/-- Counterexample to C5: a 500 response during polling does not propagate;
the loop throws `Failed to poll response: Internal Server Error`, whose
message passes the catch block's `includes('Failed to poll')` test, so the
error is swallowed and the fetch retried after the 3000ms poll interval. -/
theorem poll_500_swallowed_counterexample :
    pollStep (.httpErr 500 "Internal Server Error" none) = .sleepRetry 3000 := by
  simp only [pollStep]
  rw [if_neg (by decide : (500 : ℕ) ≠ 429)]
  simp only [pollErrorTransient_pollMessage "Internal Server Error"]
  simp

/-- C5 (amended): during polling, a thrown error is swallowed and retried
exactly when its message contains `404` or `Failed to poll`. Every non-2xx
response other than 429 throws `Failed to poll response: <statusText>` and is
therefore swallowed, whatever its status code; errors with other messages —
a network failure's `Failed to fetch`, or the message of a remotely-failed
job — propagate out of the loop. -/
theorem poll_transient_by_message :
    (∀ (code : ℕ) (st : String) (body : Option RateErr), code ≠ 429 →
        pollStep (.httpErr code st body) = .sleepRetry 3000)
    ∧ pollStep (.netErr "Failed to fetch") = .raise "Failed to fetch"
    ∧ (∀ m : String, pollErrorTransient m = false → pollStep (.netErr m) = .raise m)
    ∧ pollStep (.ok ⟨some "failed", some ⟨some "model overloaded"⟩, false, none, none⟩)
        = .raise "model overloaded" := by
  refine ⟨?_, ?_, ?_, ?_⟩
  · intro code st body hc
    simp only [pollStep]
    rw [if_neg hc]
    simp [pollErrorTransient_pollMessage st]
  · have h : pollErrorTransient "Failed to fetch" = false := by decide
    simp [pollStep, h]
  · intro m hm
    simp [pollStep, hm]
  · have h : classify ⟨some "failed", some ⟨some "model overloaded"⟩, false, none, none⟩
        = .failed "model overloaded" := by decide
    have h2 : pollErrorTransient "model overloaded" = false := by decide
    simp [pollStep, h, h2]

/-- Witness for C5 (amended) at concrete inputs: a 503 is swallowed and a
network error with an unmatched message propagates. -/
theorem poll_transient_by_message_witness :
    pollStep (.httpErr 503 "Service Unavailable" none) = .sleepRetry 3000
    ∧ pollStep (.netErr "boom") = .raise "boom" :=
  ⟨poll_transient_by_message.1 503 "Service Unavailable" none (by decide),
   poll_transient_by_message.2.2.1 "boom" (by decide)⟩

/-- Template already stored under id "1". -/
def oldTemplate : Template :=
  ⟨"1", "Old name", none, "old prompt", "o4-mini-deep-research", 1, 1⟩

/-- Edited template reusing id "1" (the `handleSaveEdit` flow of
`TemplatesPage` passes the same id to `addTemplate`). -/
def newTemplate : Template :=
  ⟨"1", "New name", none, "new prompt", "o4-mini-deep-research", 1, 1⟩

/-- C6 evaluated at the failing input: a successful `addTemplate` with an
already-present id appends, leaving two entries with that id in the
in-memory list, while the remote id-keyed `setDoc` does perform the upsert
the claim describes (exactly one document, bearing the new fields). -/
theorem addTemplate_existing_id_duplicates :
    addTemplate [oldTemplate] newTemplate true = .ok [oldTemplate, newTemplate]
    ∧ countWithId [oldTemplate, newTemplate] "1" = 2
    ∧ setDocTemplates [oldTemplate] newTemplate = [newTemplate] := by
  refine ⟨rfl, by decide, by decide⟩

/-- Counterexample to C7: when the pre-call list already holds a template
with the same id, the rollback filter removes that pre-existing entry along
with the optimistic insert, so the list does not return to its pre-call
state. -/
theorem rollback_loses_existing_counterexample :
    addTemplate [oldTemplate] newTemplate false = .err []
    ∧ ([] : List Template) ≠ [oldTemplate] := by
  refine ⟨by decide, by decide⟩

/-- C7 (amended): when no entry with the template's id is present before the
call — the only state reachable without the duplicate-id append — a failed
`addTemplate` rolls the list back to exactly its pre-call state (same
elements, same order) and re-throws; when an entry with that id already
exists, the rollback also removes it. -/
theorem addTemplate_rollback_exact (ts : List Template) (t : Template)
    (h : ∀ u ∈ ts, u.id ≠ t.id) : addTemplate ts t false = .err ts := by
  have h1 : ts.filter (fun u => decide (u.id ≠ t.id)) = ts :=
    List.filter_eq_self.mpr (fun u hu => decide_eq_true (h u hu))
  have h2 : (decide (t.id ≠ t.id)) = false := by simp
  simp [addTemplate, List.filter_append, h1, h2]
  exact h

/-- Template under a fresh id "2". -/
def otherTemplate : Template :=
  ⟨"2", "Other", none, "p", "m", 1, 1⟩

/-- Witness for C7 (amended): a failed insert of id "1" next to an existing
id "2" restores exactly the pre-call list. -/
theorem addTemplate_rollback_exact_witness :
    addTemplate [otherTemplate] newTemplate false = .err [otherTemplate] :=
  addTemplate_rollback_exact [otherTemplate] newTemplate (by decide)

/-- C8: the readiness wait polls at the 3-second interval up to the
30-second ceiling (10 fetches) and, when files are still in progress at the
ceiling (scenario 5: `in_progress: 1`), returns normally as a timeout, after
which `addFilesToVectorStore` completes without error; a store reporting
zero in-flight and at least one completed file is accepted immediately,
while zero completed files keeps it waiting. -/
theorem vectorStoreWait_ceiling :
    waitForVectorStoreReady (fun _ => some ⟨1, 2⟩) 30000 = (.timedOut, 10)
    ∧ addFilesToVectorStore (fun _ => .ok ()) (fun _ => some ⟨1, 2⟩)
        ["f1", "f2", "f3"] = .ok .timedOut
    ∧ waitForVectorStoreReady (fun _ => some ⟨0, 3⟩) 30000 = (.ready, 1)
    ∧ waitForVectorStoreReady (fun _ => some ⟨0, 0⟩) 30000 = (.timedOut, 10) := by
  refine ⟨by decide, rfl, by decide, by decide⟩

/-- C9: starting from chat mode, the orchestrator switches to research mode
on an assistant reply exactly when the reply includes the `[READY]` token;
when it does, the appended assistant turn is the reply with the marker
stripped and trimmed, and otherwise the reply is appended unchanged with the
mode still chat. -/
theorem handleChatReply_ready_marker (msgs : List ChatMessage) (r : String) :
    ((handleChatReply ⟨.chat, msgs⟩ r).mode = .research
        ↔ jsIncludes r readyToken = true)
    ∧ (jsIncludes r readyToken = true →
        (handleChatReply ⟨.chat, msgs⟩ r).messages
          = msgs ++ [⟨.assistant, jsTrim (jsReplaceFirst r readyToken "")⟩])
    ∧ (jsIncludes r readyToken = false →
        (handleChatReply ⟨.chat, msgs⟩ r).mode = .chat
        ∧ (handleChatReply ⟨.chat, msgs⟩ r).messages = msgs ++ [⟨.assistant, r⟩]) := by
  cases h : jsIncludes r readyToken with
  | true => simp [handleChatReply, h]
  | false => simp [handleChatReply, h]

/-- Witness for C9: a concrete `[READY]`-bearing reply switches the mode and
is displayed with the marker stripped and the remainder trimmed. -/
theorem handleChatReply_ready_marker_witness :
    (handleChatReply ⟨.chat, []⟩ "[READY] I will begin.").mode = .research
    ∧ (handleChatReply ⟨.chat, []⟩ "[READY] I will begin.").messages
        = [⟨.assistant, "I will begin."⟩] := by
  have h := handleChatReply_ready_marker [] "[READY] I will begin."
  refine ⟨h.1.mpr (by decide), ?_⟩
  rw [h.2.1 (by decide)]
  decide

/-- Environment whose remote operations all succeed, for the C10 witness. -/
def sampleFilesEnv : FilesEnv :=
  ⟨.ok "vs1", fun _ => .ok "file1", fun _ => .ok (), fun _ => some ⟨0, 1⟩⟩

/-- C10: an empty file list makes `processFilesForResearch` return `null`
with no remote request of any kind issued, and a vector store is created
only when at least one file is supplied. -/
theorem processFiles_empty_no_calls :
    (∀ env : FilesEnv, processFilesForResearch env [] = (.ok none, []))
    ∧ ∀ (env : FilesEnv) (files : List String),
        .createVectorStore ∈ (processFilesForResearch env files).2 → files ≠ [] := by
  refine ⟨fun env => rfl, ?_⟩
  intro env files h
  cases files with
  | nil => simp [processFilesForResearch] at h
  | cons f rest => exact List.cons_ne_nil f rest

/-- Witness for C10 at a concrete environment and file list. -/
theorem processFiles_empty_no_calls_witness :
    processFilesForResearch sampleFilesEnv [] = (.ok none, [])
    ∧ ("a" :: [] : List String) ≠ [] :=
  ⟨processFiles_empty_no_calls.1 sampleFilesEnv,
   processFiles_empty_no_calls.2 sampleFilesEnv ["a"] (by decide)⟩

end DeepSynergy
